import Mathlib

/-!
A verification development for the task-orchestration core of the
cheatengine-mcp-bridge agent (`CE_Agent`).  The Python sources are shallowly
embedded: pure functions become Lean functions, Python `str.lower`/`in`
substring tests become explicit character-list operations, Python lists and
dicts become Lean lists (dicts as association lists), machine floats that only
ever hold exact small ratios (progress, confidence, timings) are modelled as
rationals, and Python exceptions are modelled as explicit outcome values
(`Except`, or a `StageOutcome` for orchestration stages).  External
collaborators (the LLM transport, the MCP backend, the result synthesizer)
are parameters: they appear as oracle arguments so that every theorem
quantifies over all of their possible behaviours.
-/

namespace CEAgent

/-! ## String helpers (Python `in` on strings, `str.lower`) -/

/-- Bool test that `needle` is a prefix of `hay` (over character lists). -/
def listPrefixAt : List Char → List Char → Bool
  | [], _ => true
  | _ :: _, [] => false
  | a :: as, b :: bs => a == b && listPrefixAt as bs

/-- Auxiliary scan: does `needle` occur starting at some position of the list? -/
def containsAux (needle : List Char) : List Char → Bool
  | [] => listPrefixAt needle []
  | c :: rest => listPrefixAt needle (c :: rest) || containsAux needle rest

/-- Python `needle in hay` on strings: substring occurrence test. -/
def strContains (hay needle : String) : Bool := containsAux needle.data hay.data

/-- Python `str.lower()` (ASCII case folding, as `Char.toLower` only maps
basic latin letters, which matches every string the sources lower-case). -/
def pyLower (s : String) : String := String.mk (s.data.map Char.toLower)

/-- Python `l[-n:]`: the last at-most-`n` elements of a list. -/
def takeLast {α : Type} (n : Nat) (l : List α) : List α := l.drop (l.length - n)

/-! ## Data model (`CE_Agent/models/core_models.py`, `models/base.py`) -/

/-- `TaskState` enum. -/
inductive TaskState where
  | pending
  | running
  | paused
  | completed
  | failed
  | cancelled
deriving DecidableEq

/-- `SubTask` (core_models.py).  Python ints are embedded as `Int`. -/
structure SubTask where
  id : Int
  description : String
  tools : List String
  expected_output : String
  dependencies : List Int := []
deriving DecidableEq

/-- `ExecutionPlan` (core_models.py). -/
structure ExecutionPlan where
  task_id : String
  task_type : String
  description : String
  subtasks : List SubTask
  estimated_steps : Int
deriving DecidableEq

/-- `ExecutionStep` (core_models.py).  The opaque `result` payload and the
timestamp are modelled as a string option and an integer tick. -/
structure ExecutionStep where
  step_id : Int
  tool_name : String
  tool_args : List (String × String) := []
  result : Option String := none
  timestamp : Int := 0
  success : Bool
  error : Option String := none
deriving DecidableEq

/-- `ExecutionContext` (core_models.py); `intermediate_results` is the dict
modelled as an association list. -/
structure ExecutionContext where
  task_id : String
  user_request : String
  execution_plan : ExecutionPlan
  current_step : Int
  history : List ExecutionStep
  intermediate_results : List (String × String) := []
  state : TaskState
deriving DecidableEq

/-- `StateEvaluation` (core_models.py); `progress` is the float modelled as ℚ. -/
structure StateEvaluation where
  current_state : TaskState
  progress : ℚ
  success : Bool
  issues : List String
  recommendations : List String

/-- `Decision` (core_models.py). -/
structure Decision where
  action : String
  reason : String
  confidence : ℚ
  next_steps : List String

/-- `RecoveryAction` (core_models.py). -/
structure RecoveryAction where
  action : String
  reason : String
  alternative_tools : List String
  retry_count : Int

/-- `AnalysisReport` (core_models.py); the `details` dict is an association
list of string payloads, `execution_time` a rational. -/
structure AnalysisReport where
  task_id : String
  success : Bool
  summary : String
  details : List (String × String)
  insights : List String
  recommendations : List String
  execution_time : ℚ
  error : Option String := none

/-- `Parameter` (models/base.py). -/
structure Parameter where
  name : String
  type : String
  required : Bool
  description : String
deriving DecidableEq

/-- `ToolMetadata` (models/base.py); the category enum is kept as its string
value. -/
structure ToolMetadata where
  name : String
  category : String
  description : String
  parameters : List Parameter
  destructive : Bool := false
  requires_approval : Bool := false
deriving DecidableEq

/-- `ToolResult` (models/base.py, the variant produced by the executor).
`result` holds the opaque return payload; `execution_time` a rational. -/
structure ToolResult where
  success : Bool
  tool_name : String
  parameters : List (String × String)
  result : Option String := none
  error : Option String := none
  execution_time : Option ℚ := none

/-- `ToolCall` (models/base.py); `arguments` is the kwargs dict. -/
structure ToolCall where
  name : String
  arguments : List (String × String)

/-! ## Tool registry (`CE_Agent/tools/registry.py`)

A registered tool couples metadata with its function.  A tool function takes
the kwargs dict and either returns a value or raises: `Except String String`
(the error carries `str(e)` of the raised exception). -/

/-- One `_tools` entry: the `metadata`/`function` pair stored by
`register_tool`. -/
structure ToolEntry where
  metadata : ToolMetadata
  fn : List (String × String) → Except String String

/-- `ToolRegistry._tools`: a name-keyed mapping, embedded as an association
list (registration keys entries by `metadata.name`). -/
structure ToolRegistry where
  tools : List (String × ToolEntry)

/-- `ToolRegistry.get_tool`. -/
def ToolRegistry.get_tool (r : ToolRegistry) (name : String) : Option ToolEntry :=
  (r.tools.find? (fun p => p.1 == name)).map (fun p => p.2)

/-- `ToolRegistry.get_tool_metadata`. -/
def ToolRegistry.get_tool_metadata (r : ToolRegistry) (name : String) : Option ToolMetadata :=
  (r.get_tool name).map (fun t => t.metadata)

/-- `ToolRegistry.get_tool_function`. -/
def ToolRegistry.get_tool_function (r : ToolRegistry) (name : String) :
    Option (List (String × String) → Except String String) :=
  (r.get_tool name).map (fun t => t.fn)

/-- `ToolRegistry.validate_parameters`: every required declared parameter is
present, and no supplied argument is outside the declared parameter set. -/
def ToolRegistry.validate_parameters (r : ToolRegistry) (name : String)
    (params : List (String × String)) : Bool :=
  match r.get_tool_metadata name with
  | none => false
  | some md =>
    md.parameters.all (fun p => !p.required || params.any (fun kv => kv.1 == p.name)) &&
    params.all (fun kv => md.parameters.any (fun p => p.name == kv.1))

/-! ## Task planner (`CE_Agent/core/task_planner.py`) -/

/-- `identify_intent`'s pattern table: each regex is an alternation of literal
substrings, so `re.search` over the lower-cased request is an any-substring
test. -/
def intent_patterns : List (List String × String) :=
  [ (["find", "locate", "search", "scan", "look for", "find pattern"], "search"),
    (["analyze", "examine", "inspect", "study", "investigate"], "analyze"),
    (["read", "view", "get", "retrieve", "fetch", "obtain"], "read"),
    (["modify", "change", "alter", "update", "set", "write"], "modify"),
    (["debug", "breakpoint", "monitor", "watch"], "debug"),
    (["structure", "data structure", "struct", "object"], "structure"),
    (["function", "code", "disassemble", "assembly"], "function"),
    (["memory", "address", "pointer"], "memory") ]

/-- `TaskPlanner.identify_intent`: first pattern (in table order) with any
alternative occurring in the lower-cased request wins; otherwise "general". -/
def identify_intent (request : String) : String :=
  let request_lower := pyLower request
  match intent_patterns.find? (fun pat => pat.1.any (fun kw => strContains request_lower kw)) with
  | some pat => pat.2
  | none => "general"

/-- `TaskPlanner.classify_task`: the `intent_to_task_map` dict lookup with
default `COMPREHENSIVE_ANALYSIS`. -/
def classify_task (intent : String) : String :=
  if intent = "structure" then "DATA_STRUCTURE_ANALYSIS"
  else if intent = "function" then "FUNCTION_ANALYSIS"
  else if intent = "search" then "PATTERN_SEARCH"
  else if intent = "debug" then "BREAKPOINT_DEBUGGING"
  else if intent = "analyze" then "COMPREHENSIVE_ANALYSIS"
  else if intent = "general" then "COMPREHENSIVE_ANALYSIS"
  else "COMPREHENSIVE_ANALYSIS"

/-- `TaskPlanner.decompose_task`: the five canned templates; any other task
type yields the empty list (the initial `subtasks = []`). -/
def decompose_task (task_type : String) (_request : String) : List SubTask :=
  if task_type = "DATA_STRUCTURE_ANALYSIS" then
    [ { id := 1, description := "Identify the target process for analysis",
        tools := ["get_process_info"],
        expected_output := "Process information including PID and name",
        dependencies := [] },
      { id := 2, description := "Scan memory regions for interesting data",
        tools := ["get_memory_regions"],
        expected_output := "List of accessible memory regions",
        dependencies := [1] },
      { id := 3, description := "Perform pattern scans to identify data structures",
        tools := ["scan_all", "generate_signature"],
        expected_output := "Potential data structure locations and signatures",
        dependencies := [2] },
      { id := 4, description := "Analyze identified data structures",
        tools := ["disassemble", "analyze_function"],
        expected_output := "Detailed analysis of data structures",
        dependencies := [3] } ]
  else if task_type = "FUNCTION_ANALYSIS" then
    [ { id := 1, description := "Locate the target function or module",
        tools := ["enum_modules", "get_symbol_address"],
        expected_output := "Function addresses and module information",
        dependencies := [] },
      { id := 2, description := "Disassemble the function to understand its structure",
        tools := ["disassemble", "get_instruction_info"],
        expected_output := "Assembly code and instruction details",
        dependencies := [1] },
      { id := 3, description := "Analyze function boundaries and references",
        tools := ["find_function_boundaries", "find_references"],
        expected_output := "Function boundaries and reference locations",
        dependencies := [2] },
      { id := 4, description := "Perform deeper analysis of function behavior",
        tools := ["analyze_function", "find_call_references"],
        expected_output := "Detailed function analysis and call graph",
        dependencies := [3] } ]
  else if task_type = "PATTERN_SEARCH" then
    [ { id := 1, description := "Identify the target process for scanning",
        tools := ["get_process_info"],
        expected_output := "Process information including PID and name",
        dependencies := [] },
      { id := 2, description := "Get memory regions to scan",
        tools := ["get_memory_regions"],
        expected_output := "List of accessible memory regions",
        dependencies := [1] },
      { id := 3, description := "Perform initial broad scan for the pattern",
        tools := ["scan_all"],
        expected_output := "Initial scan results with potential matches",
        dependencies := [2] },
      { id := 4, description := "Narrow down results with more specific patterns",
        tools := ["aob_scan", "search_string"],
        expected_output := "Refined scan results with exact matches",
        dependencies := [3] },
      { id := 5, description := "Generate signature for the found pattern",
        tools := ["generate_signature"],
        expected_output := "Signature that can be used for future searches",
        dependencies := [4] } ]
  else if task_type = "BREAKPOINT_DEBUGGING" then
    [ { id := 1, description := "Identify the target process for debugging",
        tools := ["get_process_info"],
        expected_output := "Process information including PID and name",
        dependencies := [] },
      { id := 2, description := "Locate the function or address to set breakpoint",
        tools := ["get_symbol_address", "disassemble"],
        expected_output := "Address information for breakpoint placement",
        dependencies := [1] },
      { id := 3, description := "Set breakpoint at the identified location",
        tools := ["set_breakpoint"],
        expected_output := "Breakpoint confirmation and hit count",
        dependencies := [2] },
      { id := 4, description := "Monitor breakpoint hits and gather data",
        tools := ["get_breakpoint_hits", "read_memory"],
        expected_output := "Breakpoint hit data and memory snapshots",
        dependencies := [3] },
      { id := 5, description := "Analyze collected data for debugging insights",
        tools := ["analyze_function", "disassemble"],
        expected_output := "Analysis of debugging data and insights",
        dependencies := [4] } ]
  else if task_type = "COMPREHENSIVE_ANALYSIS" then
    [ { id := 1, description := "Gather initial information about the target",
        tools := ["get_process_info", "enum_modules"],
        expected_output := "Basic process and module information",
        dependencies := [] },
      { id := 2, description := "Map out memory layout and regions",
        tools := ["get_memory_regions"],
        expected_output := "Complete memory region map",
        dependencies := [1] },
      { id := 3, description := "Perform initial scans to identify interesting areas",
        tools := ["scan_all", "aob_scan"],
        expected_output := "Initial scan results highlighting interesting areas",
        dependencies := [2] },
      { id := 4, description := "Analyze identified areas in detail",
        tools := ["disassemble", "analyze_function", "read_memory"],
        expected_output := "Detailed analysis of interesting areas",
        dependencies := [3] },
      { id := 5, description := "Synthesize findings and provide recommendations",
        tools := ["generate_signature", "find_references"],
        expected_output := "Comprehensive analysis report with recommendations",
        dependencies := [4] } ]
  else []

/-- `TaskPlanner._plan_with_rules`.  The uuid task id is a parameter. -/
def plan_with_rules (task_id : String) (request : String) : ExecutionPlan :=
  let intent := identify_intent request
  let task_type := classify_task intent
  let subtasks := decompose_task task_type request
  { task_id := task_id, task_type := task_type, description := request,
    subtasks := subtasks, estimated_steps := (subtasks.length : Int) }

/-- The observable outcome of the LLM planning attempt inside
`_plan_with_llm`: the `chat` call raised; or the response lacked the
`message.content` shape / `parse_task_plan` found no JSON (both fall through
to the fallback line); or a task-plan dict was parsed, carrying a task type
(default `COMPREHENSIVE_ANALYSIS`) and the subtask list produced by
`_parse_llm_subtasks` (possibly empty: `parse_task_plan` defaults missing
`subtasks` to `[]` and still returns a truthy dict). -/
inductive LLMPlanResponse where
  | raises (msg : String)
  | unparsed
  | parsed (task_type : String) (subtasks : List SubTask)

/-- `TaskPlanner._plan_with_llm`, parameterized by the LLM outcome. -/
def plan_with_llm (resp : LLMPlanResponse) (task_id : String) (request : String) :
    ExecutionPlan :=
  match resp with
  | .raises _ => plan_with_rules task_id request
  | .unparsed => plan_with_rules task_id request
  | .parsed tt sts =>
    { task_id := task_id, task_type := tt, description := request,
      subtasks := sts, estimated_steps := (sts.length : Int) }

/-- `TaskPlanner.plan`: dispatch on `use_llm and self.ollama_client`. -/
def TaskPlanner.plan (use_llm has_client : Bool) (resp : LLMPlanResponse)
    (task_id : String) (request : String) : ExecutionPlan :=
  if use_llm && has_client then plan_with_llm resp task_id request
  else plan_with_rules task_id request

/-! ## Reasoning engine (`CE_Agent/core/reasoning_engine.py`), rule paths -/

/-- Rendering of the optional error of a step inside an f-string
(`str(None)` is "None"). -/
def optErrStr (e : Option String) : String :=
  match e with
  | some s => s
  | none => "None"

/-- `ReasoningEngine.evaluate_state`.  `recent_errors` is the 3-element tail
of all failed steps; the stuck check compares its length with the length of
the 5-element tail of the whole history. -/
def evaluate_state (ctx : ExecutionContext) : StateEvaluation :=
  let completed_steps := (ctx.history.filter (fun s => s.success)).length
  let total_expected_steps := ctx.execution_plan.estimated_steps
  let progress : ℚ := min ((completed_steps : ℚ) / ((max total_expected_steps 1 : Int) : ℚ)) 1
  let success := decide (ctx.state ≠ TaskState.failed) && decide (progress < 1)
  let recent_errors := takeLast 3 (ctx.history.filter (fun s => !s.success))
  let issues := recent_errors.map
    (fun s => "Recent error in step " ++ toString s.step_id ++ ": " ++ optErrStr s.error)
  let issues :=
    if 0 < ctx.history.length && recent_errors.length == (takeLast 5 ctx.history).length then
      issues ++ ["Appears to be stuck in error loop"]
    else issues
  let recommendations :=
    if 1 ≤ progress then ["Task appears complete, finalize results"]
    else if issues ≠ [] then ["Address identified issues before proceeding"]
    else ["Continue with planned execution"]
  { current_state := ctx.state, progress := progress, success := success,
    issues := issues, recommendations := recommendations }

/-- `ReasoningEngine._make_decision_with_rules`.  Note the stuck-loop branch
tests list membership (`in` on a Python list) of the exact string
"stuck in error loop" in `evaluation.issues`. -/
def make_decision_with_rules (evaluation : StateEvaluation) (_ctx : ExecutionContext) :
    Decision :=
  let base : ℚ := evaluation.progress
  let tuple : String × String × ℚ × List String :=
    if evaluation.current_state = TaskState.completed then
      ("finalize", "Task has been marked as completed", base, ["Generate final report"])
    else if evaluation.current_state = TaskState.failed then
      ("abort", "Task has been marked as failed", base, ["Abort execution and report error"])
    else if evaluation.issues ≠ [] then
      if evaluation.issues.contains "stuck in error loop" then
        ("recover", "Detected error loop, attempting recovery", (1 : ℚ)/2,
          ["Try alternative tools or approaches"])
      else
        ("adjust", "Issues detected, need to adjust plan", (7 : ℚ)/10,
          evaluation.recommendations)
    else if 1 ≤ evaluation.progress then
      ("finalize", "Estimated steps completed", base, ["Generate final report"])
    else
      ("continue", "No major issues detected, continue with plan", base,
        ["Execute next planned step"])
  let confidence := if evaluation.issues ≠ [] then tuple.2.2.1 * ((7 : ℚ)/10) else tuple.2.2.1
  { action := tuple.1, reason := tuple.2.1, confidence := confidence,
    next_steps := tuple.2.2.2 }

/-- `ReasoningEngine._is_subtask_complete`: distinct subtask tools seen in
successful history steps, compared against `max 1 (len(tools) // 2)`. -/
def is_subtask_complete (subtask : SubTask) (ctx : ExecutionContext) : Bool :=
  let successful_tool_calls := ctx.history.filter (fun s => s.success)
  let subtask_tools_used :=
    (successful_tool_calls.filter (fun s => subtask.tools.contains s.tool_name)).map
      (fun s => s.tool_name)
  decide (max 1 (subtask.tools.length / 2) ≤ subtask_tools_used.dedup.length)

/-- `ReasoningEngine._suggest_alternative_tools`: the current subtask's tool
list (index clamped to the last subtask), or `[]` when the clamped index is
negative. -/
def suggest_alternative_tools (ctx : ExecutionContext) : List String :=
  let idx : Int := min ctx.current_step ((ctx.execution_plan.subtasks.length : Int) - 1)
  if 0 ≤ idx then
    match ctx.execution_plan.subtasks.get? idx.toNat with
    | some st => st.tools
    | none => []
  else []

/-- `ReasoningEngine.recover_from_error`; the argument is `str(error)`. -/
def recover_from_error (error : String) (ctx : ExecutionContext) : RecoveryAction :=
  if strContains (pyLower error) "timeout" then
    { action := "retry", reason := "Timeout occurred, attempting retry with longer timeout",
      alternative_tools := [], retry_count := 1 }
  else if strContains (pyLower error) "connection" || strContains (pyLower error) "pipe" then
    { action := "reconnect", reason := "Connection issue detected, attempting to reconnect",
      alternative_tools := [], retry_count := 1 }
  else if strContains (pyLower error) "access denied" || strContains (pyLower error) "permission" then
    { action := "switch_approach", reason := "Permission denied, trying alternative approach",
      alternative_tools := suggest_alternative_tools ctx, retry_count := 0 }
  else
    { action := "switch_approach",
      reason := "General error occurred: " ++ error ++ ", trying alternative approach",
      alternative_tools := suggest_alternative_tools ctx, retry_count := 0 }

/-! ## Tool executor (`CE_Agent/tools/executor.py`) -/

/-- `ToolExecutor.check_permissions`: no metadata denies; otherwise a tool is
allowed unless destructive and not flagged `requires_approval`. -/
def check_permissions (r : ToolRegistry) (tool_name : String) : Bool :=
  match r.get_tool_metadata tool_name with
  | none => false
  | some md => !md.destructive || md.requires_approval

/-- `ToolExecutor.execute`: validate, check permission, resolve the function,
invoke it; a raising tool function is caught and wrapped.  `elapsed` stands
for the wall-clock delta attached where the source measures time. -/
def ToolExecutor.execute (r : ToolRegistry) (tool_name : String)
    (kwargs : List (String × String)) (elapsed : ℚ) : ToolResult :=
  if !(r.validate_parameters tool_name kwargs) then
    { success := false, tool_name := tool_name, parameters := kwargs,
      error := some ("工具 '" ++ tool_name ++ "' 的参数无效") }
  else if !(check_permissions r tool_name) then
    { success := false, tool_name := tool_name, parameters := kwargs,
      error := some ("Permission denied for tool '" ++ tool_name ++ "'") }
  else
    match r.get_tool_function tool_name with
    | none =>
      { success := false, tool_name := tool_name, parameters := kwargs,
        error := some ("Tool '" ++ tool_name ++ "' not found") }
    | some tool_func =>
      match tool_func kwargs with
      | .ok v =>
        { success := true, tool_name := tool_name, parameters := kwargs,
          result := some v, execution_time := some elapsed }
      | .error m =>
        { success := false, tool_name := tool_name, parameters := kwargs,
          error := some ("Error executing tool '" ++ tool_name ++ "': " ++ m),
          execution_time := some elapsed }

/-- `ToolExecutor.execute_batch`: sequential execution, one result per call,
continuing past failures. -/
def ToolExecutor.execute_batch (r : ToolRegistry) (calls : List ToolCall) (elapsed : ℚ) :
    List ToolResult :=
  calls.map (fun call => ToolExecutor.execute r call.name call.arguments elapsed)

/-! ## Agent orchestrator (`CE_Agent/core/agent.py`) -/

/-- A Python call that either returns normally or raises; the message is
`str(e)` of the exception. -/
inductive StageOutcome (α : Type) where
  | ok (a : α)
  | raises (msg : String)

/-- The stages `Agent.execute` runs inside its try block.  `plan_stage`
(`task_planner.plan`) and `create_context_stage`
(`context_manager.create_context`) are total functions: the planner catches
every exception of its LLM strategy and falls back to the total rule path
(task_planner.py 107-110, cf. the C2 theorems), and `create_context` is a
plain record construction plus a dict store.  `execute_plan_body` is the
try-block body of `_execute_plan` (dependency gating, tool calls, reasoning —
including the `ExecutionStep` construction at agent.py:235 whose
`time.datetime.now()` raises AttributeError), which may raise with any
message; its except clause is modelled by `execute_plan_stage` below.
`synthesize_stage` (`result_synthesizer.synthesize`) is an external
collaborator absent from the sources, so only its call boundary is modelled
and it may raise arbitrarily.  `now`/`elapsed` stand for the clock reads. -/
structure AgentEnv where
  plan_stage : String → ExecutionPlan
  create_context_stage : ExecutionPlan → ExecutionContext
  execute_plan_body : ExecutionContext → StageOutcome ExecutionContext
  synthesize_stage : ExecutionContext → StageOutcome AnalysisReport
  now : Int
  elapsed : ℚ

/-- `Agent._execute_plan`'s except clause (agent.py 276-279): any exception
from the loop body is logged, and then the handler itself evaluates
`type.__dict__['TaskState']` — the builtin `type`'s `__dict__` has no such
key, so this raises `KeyError('TaskState')` before the bare `raise`
statement is reached.  Hence whatever the loop raised, the exception
escaping `_execute_plan` is that KeyError, whose `str(e)` is "'TaskState'"
(Python renders a KeyError as the repr of its key). -/
def execute_plan_stage (env : AgentEnv) (ctx : ExecutionContext) :
    StageOutcome ExecutionContext :=
  match env.execute_plan_body ctx with
  | .ok c => .ok c
  | .raises _ => .raises "'TaskState'"

/-- The synthetic failed report built by `Agent.execute`'s except branch;
`msg` is `str(e)`. -/
def agent_error_report (now : Int) (elapsed : ℚ) (msg : String) : AnalysisReport :=
  { task_id := "error-" ++ toString now,
    success := false,
    summary := "由于内部错误导致执行失败",
    details := [("error", msg)],
    insights := ["由于错误无法完成执行"],
    recommendations := ["重试请求或联系支持"],
    execution_time := elapsed,
    error := some msg }

/-- `Agent.execute`: the whole pipeline inside one try; a raising stage
short-circuits to the synthetic error report built from `str(e)`; otherwise
the synthesized report is returned with its execution time overwritten. -/
def Agent.execute (env : AgentEnv) (request : String) : AnalysisReport :=
  let execution_plan := env.plan_stage request
  let context := env.create_context_stage execution_plan
  match execute_plan_stage env context with
  | .raises m => agent_error_report env.now env.elapsed m
  | .ok context2 =>
    match env.synthesize_stage context2 with
    | .raises m => agent_error_report env.now env.elapsed m
    | .ok report => { report with execution_time := env.elapsed }

/-! ## Specification-side predicates and concrete inputs for the theorems -/

/-- The spec's count for the subtask-completion heuristic: distinct tool
names from the subtask's tool list that appear in some successful history
step (stated independently of `is_subtask_complete`, to be compared with it). -/
def spec_distinct_successful_tools (subtask : SubTask) (ctx : ExecutionContext) :
    Finset String :=
  subtask.tools.toFinset.filter
    (fun t => ∃ s ∈ ctx.history, s.success = true ∧ s.tool_name = t)

/-- Well-formedness of a canned template, as the spec states it: ids start at
1 and are sequential, dependencies only name earlier (strictly smaller,
positive) ids, and no subtask depends on itself. -/
def subtasks_well_formed (l : List SubTask) : Bool :=
  l.enum.all (fun p => p.2.id == (p.1 : Int) + 1) &&
  l.all (fun st => st.dependencies.all (fun d => decide (1 ≤ d) && decide (d < st.id))) &&
  l.all (fun st => !(st.dependencies.contains st.id))

/-- A minimal plan used by concrete execution contexts. -/
def dummy_plan : ExecutionPlan :=
  { task_id := "t", task_type := "COMPREHENSIVE_ANALYSIS", description := "r",
    subtasks := decompose_task "COMPREHENSIVE_ANALYSIS" "r", estimated_steps := 5 }

/-- A minimal running context. -/
def dummy_ctx : ExecutionContext :=
  { task_id := "t", user_request := "r", execution_plan := dummy_plan,
    current_step := 0, history := [], state := TaskState.running }

/-- A successful history step recording one tool call. -/
def ok_step (i : Int) (t : String) : ExecutionStep :=
  { step_id := i, tool_name := t, success := true }

/-- A failed history step. -/
def failed_step (i : Int) : ExecutionStep :=
  { step_id := i, tool_name := "scan_all", success := false, error := some "read failed" }

/-- The stuck-loop scenario of claim C3: a running context whose history is
exactly 5 steps, all failed. -/
def stuck_ctx : ExecutionContext :=
  { task_id := "t", user_request := "r", execution_plan := dummy_plan,
    current_step := 0,
    history := [failed_step 1, failed_step 2, failed_step 3, failed_step 4, failed_step 5],
    state := TaskState.running }

/-- The subtask of the C6 scenario, with tools a, b, c, d. -/
def c6_subtask : SubTask :=
  { id := 1, description := "scan", tools := ["a", "b", "c", "d"], expected_output := "" }

/-- C6 scenario: exactly tools a and b have succeeded. -/
def c6_ctx_ab : ExecutionContext :=
  { dummy_ctx with history := [ok_step 1 "a", ok_step 2 "b"] }

/-- C6 scenario: only tool a has succeeded. -/
def c6_ctx_a : ExecutionContext :=
  { dummy_ctx with history := [ok_step 1 "a"] }

/-- C10 scenario: estimated_steps 2 and two successful steps, so progress is
capped at 1. -/
def done_ctx : ExecutionContext :=
  { dummy_ctx with
    execution_plan := { dummy_plan with estimated_steps := 2 },
    history := [ok_step 1 "get_process_info", ok_step 2 "enum_modules"] }

/-- C4 scenario: metadata of a destructive tool that is not pre-approved. -/
def c4_md : ToolMetadata :=
  { name := "write_memory", category := "memory_read", description := "write",
    parameters := [], destructive := true, requires_approval := false }

/-- C4 scenario: a registry holding only that destructive tool. -/
def c4_registry : ToolRegistry :=
  { tools := [("write_memory", { metadata := c4_md, fn := fun _ => .ok "written" })] }

/-- Non-destructive parameterless metadata for the batch scenario. -/
def c7_md (n : String) : ToolMetadata :=
  { name := n, category := "basic", description := "", parameters := [] }

/-- A tool function returning a fixed value. -/
def c7_fn_ok (v : String) : List (String × String) → Except String String :=
  fun _ => .ok v

/-- A tool function that raises (message "boom"). -/
def c7_fn_raises : List (String × String) → Except String String :=
  fun _ => .error "boom"

/-- C7 scenario: three tools, the middle one raising. -/
def c7_registry : ToolRegistry :=
  { tools := [("ping", { metadata := c7_md "ping", fn := c7_fn_ok "pong" }),
              ("read_memory", { metadata := c7_md "read_memory", fn := c7_fn_raises }),
              ("enum_modules", { metadata := c7_md "enum_modules", fn := c7_fn_ok "mods" })] }

/-- C7 scenario: the three calls, in order. -/
def c7_calls : List ToolCall :=
  [{ name := "ping", arguments := [] },
   { name := "read_memory", arguments := [] },
   { name := "enum_modules", arguments := [] }]

/-- A synthesized report for happy paths of agent scenarios. -/
def dummy_report : AnalysisReport :=
  { task_id := "t", success := true, summary := "done", details := [],
    insights := [], recommendations := [], execution_time := 0 }

/-- C1 scenario: the loop body of plan execution raises (here with the
message of the AttributeError actually produced at agent.py:235). -/
def loop_raise_env : AgentEnv :=
  { plan_stage := fun _ => dummy_plan,
    create_context_stage := fun _ => dummy_ctx,
    execute_plan_body := fun _ => .raises "module 'time' has no attribute 'datetime'",
    synthesize_stage := fun _ => .ok dummy_report,
    now := 0, elapsed := 0 }

/-! ## Helper lemmas -/

/-- Every canned template (and the empty default) is well formed. -/
theorem decompose_task_wf (task_type request : String) :
    subtasks_well_formed (decompose_task task_type request) = true := by
  unfold decompose_task
  split_ifs <;> decide

/-- `classify_task` only ever returns one of the five task types. -/
theorem classify_task_cases (intent : String) :
    classify_task intent = "DATA_STRUCTURE_ANALYSIS" ∨
    classify_task intent = "FUNCTION_ANALYSIS" ∨
    classify_task intent = "PATTERN_SEARCH" ∨
    classify_task intent = "BREAKPOINT_DEBUGGING" ∨
    classify_task intent = "COMPREHENSIVE_ANALYSIS" := by
  unfold classify_task
  split_ifs <;> simp

/-- The rule-based planner always produces at least one subtask. -/
theorem plan_with_rules_subtasks_ne_nil (task_id request : String) :
    (plan_with_rules task_id request).subtasks ≠ [] := by
  show decompose_task (classify_task (identify_intent request)) request ≠ []
  rcases classify_task_cases (identify_intent request) with h | h | h | h | h <;>
    rw [h] <;> simp [decompose_task]

/-! ## Claims -/

/-- Claim C9: every plan produced by the rule-based planner (each of the five
canned templates, and hence every `plan_with_rules` result) has subtask ids
starting at 1 and sequential, dependencies only naming earlier (strictly
smaller) ids, and no subtask whose id appears in its own dependency set. -/
theorem c9_rule_plans_well_formed :
    (∀ task_type request, subtasks_well_formed (decompose_task task_type request) = true) ∧
    (∀ task_id request, subtasks_well_formed ((plan_with_rules task_id request).subtasks) = true) :=
  ⟨decompose_task_wf, fun _task_id request => decompose_task_wf _ request⟩

/-- Claim C5, counterexample: for the request "analyze the structure at the
target" the rule-based planner does not classify to DATA_STRUCTURE_ANALYSIS
with 4 subtasks — the analyze pattern precedes the structure pattern in
`identify_intent`'s table, so the request classifies as analyze. -/
theorem c5_counterexample_analyze_pattern_wins :
    ¬ ((plan_with_rules "tid" "analyze the structure at the target").task_type =
         "DATA_STRUCTURE_ANALYSIS" ∧
       (plan_with_rules "tid" "analyze the structure at the target").subtasks.length = 4) := by
  decide

/-- Claim C5 (amended): under rule-based planning the request "analyze the
structure at the target" matches the analyze intent (which precedes the
structure pattern), classifies to COMPREHENSIVE_ANALYSIS, and yields exactly
5 subtasks whose first subtask lists exactly the tools get_process_info and
enum_modules and has an empty dependency set. -/
theorem c5_structure_request_comprehensive :
    identify_intent "analyze the structure at the target" = "analyze" ∧
    (plan_with_rules "tid" "analyze the structure at the target").task_type =
      "COMPREHENSIVE_ANALYSIS" ∧
    (plan_with_rules "tid" "analyze the structure at the target").subtasks.length = 5 ∧
    ((plan_with_rules "tid" "analyze the structure at the target").subtasks.head?.map
      (fun st => st.tools)) = some ["get_process_info", "enum_modules"] ∧
    ((plan_with_rules "tid" "analyze the structure at the target").subtasks.head?.map
      (fun st => st.dependencies)) = some [] := by
  decide

/-- Claim C2, counterexample: when the parsed LLM response carries an empty
subtask list, `plan` returns that empty plan as-is instead of falling back to
the (non-empty) rule-based plan. -/
theorem c2_counterexample_empty_llm_plan :
    (TaskPlanner.plan true true (.parsed "COMPREHENSIVE_ANALYSIS" []) "tid"
        "find the health value").subtasks = [] ∧
    (plan_with_rules "tid" "find the health value").subtasks ≠ [] := by
  exact ⟨rfl, by decide⟩

/-- Claim C2 (amended): `plan` never raises; when the LLM strategy throws or
its response fails to parse, `plan` returns the rule-based plan; the
rule-based plan always has a non-empty subtask list; and the only way `plan`
returns an empty subtask list is a successfully parsed LLM plan whose subtask
list is empty (which is returned verbatim, not replaced by the fallback). -/
theorem c2_plan_fallback_and_nonempty :
    (∀ m task_id request,
      TaskPlanner.plan true true (.raises m) task_id request = plan_with_rules task_id request) ∧
    (∀ task_id request,
      TaskPlanner.plan true true .unparsed task_id request = plan_with_rules task_id request) ∧
    (∀ task_id request, (plan_with_rules task_id request).subtasks ≠ []) ∧
    (∀ (use_llm has_client : Bool) resp task_id request,
      (TaskPlanner.plan use_llm has_client resp task_id request).subtasks = [] →
      ∃ tt, resp = LLMPlanResponse.parsed tt []) := by
  refine ⟨fun _ _ _ => rfl, fun _ _ => rfl, plan_with_rules_subtasks_ne_nil, ?_⟩
  intro use_llm has_client resp task_id request h
  unfold TaskPlanner.plan at h
  by_cases hc : (use_llm && has_client) = true
  · rw [if_pos hc] at h
    cases resp with
    | raises m => exact absurd h (plan_with_rules_subtasks_ne_nil task_id request)
    | unparsed => exact absurd h (plan_with_rules_subtasks_ne_nil task_id request)
    | parsed tt sts => exact ⟨tt, by simpa [plan_with_llm] using congrArg (LLMPlanResponse.parsed tt) h⟩
  · rw [if_neg hc] at h
    exact absurd h (plan_with_rules_subtasks_ne_nil task_id request)

/-- Claim C2, witness: the fallback equation at a throwing LLM, and the empty
outcome traced back to a parsed-empty response, at concrete inputs. -/
theorem c2_plan_fallback_witness :
    TaskPlanner.plan true true (.raises "connection refused") "tid" "scan memory" =
      plan_with_rules "tid" "scan memory" ∧
    (∃ tt, LLMPlanResponse.parsed "COMPREHENSIVE_ANALYSIS" ([] : List SubTask) =
      LLMPlanResponse.parsed tt []) :=
  ⟨c2_plan_fallback_and_nonempty.1 "connection refused" "tid" "scan memory",
   c2_plan_fallback_and_nonempty.2.2.2 true true
     (.parsed "COMPREHENSIVE_ANALYSIS" []) "tid" "scan memory" rfl⟩

/-- Claim C8: `recover_from_error` classifies the error string by first-match
substring rules — timeout to retry, then connection/pipe to reconnect, and
everything else (including access denied/permission) to switch_approach — so
"Connection timeout", containing both timeout and connection, yields retry. -/
theorem c8_recover_first_match :
    (∀ e ctx, (recover_from_error e ctx).action =
      (if strContains (pyLower e) "timeout" then "retry"
       else if strContains (pyLower e) "connection" || strContains (pyLower e) "pipe" then
         "reconnect"
       else "switch_approach")) ∧
    (recover_from_error "Connection timeout" dummy_ctx).action = "retry" := by
  constructor
  · intro e ctx
    unfold recover_from_error
    split_ifs <;> rfl
  · decide

/-- Claim C6: `_is_subtask_complete` holds exactly when the number of
distinct tool names from the subtask's tool list appearing in some successful
history step reaches `max 1 (len(tools) // 2)`; in particular with tools
a, b, c, d it holds once exactly a and b have succeeded, and fails with only
a succeeded. -/
theorem c6_subtask_completion_heuristic :
    (∀ subtask ctx, is_subtask_complete subtask ctx = true ↔
       max 1 (subtask.tools.length / 2) ≤ (spec_distinct_successful_tools subtask ctx).card) ∧
    is_subtask_complete c6_subtask c6_ctx_ab = true ∧
    is_subtask_complete c6_subtask c6_ctx_a = false := by
  refine ⟨?_, by decide, by decide⟩
  intro subtask ctx
  simp only [is_subtask_complete, decide_eq_true_eq]
  have hcard :
      ((((ctx.history.filter (fun s => s.success)).filter
          (fun s => subtask.tools.contains s.tool_name)).map (fun s => s.tool_name)).dedup).length
        = (spec_distinct_successful_tools subtask ctx).card := by
    rw [← List.card_toFinset]
    congr 1
    ext t
    simp only [List.mem_toFinset, List.mem_map, List.mem_filter,
      spec_distinct_successful_tools, Finset.mem_filter, List.contains, List.elem_eq_mem,
      decide_eq_true_eq]
    constructor
    · rintro ⟨s, ⟨⟨hs, hsucc⟩, htools⟩, rfl⟩
      exact ⟨htools, s, hs, hsucc, rfl⟩
    · rintro ⟨ht, s, hs, hsucc, rfl⟩
      exact ⟨s, ⟨⟨hs, hsucc⟩, ht⟩, rfl⟩
  rw [hcard]

/-- Claim C10: `evaluate_state` reports success exactly when the state is not
FAILED and the computed progress is strictly below 1, i.e. the successful
step count is strictly below `max(estimated_steps, 1)`; in particular a
context whose successful step count has reached that bound (progress capped
at 1) is reported with success = false. -/
theorem c10_evaluate_success_iff_incomplete :
    (∀ ctx, (evaluate_state ctx).success = true ↔
       (ctx.state ≠ TaskState.failed ∧
        (((ctx.history.filter (fun s => s.success)).length : Int) <
          max ctx.execution_plan.estimated_steps 1))) ∧
    (∀ ctx, max ctx.execution_plan.estimated_steps 1 ≤
        ((ctx.history.filter (fun s => s.success)).length : Int) →
      (evaluate_state ctx).success = false) := by
  have key : ∀ ctx : ExecutionContext,
      (min (((ctx.history.filter (fun s => s.success)).length : ℚ) /
          ((max ctx.execution_plan.estimated_steps 1 : Int) : ℚ)) 1 < 1) ↔
      (((ctx.history.filter (fun s => s.success)).length : Int) <
        max ctx.execution_plan.estimated_steps 1) := by
    intro ctx
    have hm : (0 : ℚ) < ((max ctx.execution_plan.estimated_steps 1 : Int) : ℚ) := by
      have : (1 : Int) ≤ max ctx.execution_plan.estimated_steps 1 := le_max_right _ _
      exact_mod_cast lt_of_lt_of_le Int.zero_lt_one this
    rw [min_lt_iff]
    simp only [lt_irrefl, or_false]
    rw [div_lt_one hm]
    constructor
    · intro h
      exact_mod_cast h
    · intro h
      exact_mod_cast h
  constructor
  · intro ctx
    simp only [evaluate_state, Bool.and_eq_true, decide_eq_true_eq]
    exact and_congr Iff.rfl (key ctx)
  · intro ctx h
    simp only [evaluate_state, Bool.and_eq_false_iff, decide_eq_false_iff_not]
    right
    rw [key ctx]
    exact not_lt.mpr h

/-- Claim C10, witness: a context with estimated_steps 2 and 2 successful
steps has reached the bound and is reported with success = false. -/
theorem c10_capped_progress_witness :
    max done_ctx.execution_plan.estimated_steps 1 ≤
      ((done_ctx.history.filter (fun s => s.success)).length : Int) ∧
    (evaluate_state done_ctx).success = false :=
  ⟨by decide, c10_evaluate_success_iff_incomplete.2 done_ctx (by decide)⟩

/-- Claim C4: for a tool with catalog metadata, the permission check fails
exactly when the tool is destructive and not flagged as pre-approved; and in
that case `execute` (once validation passes) returns the failed
permission-denied ToolResult — built without consulting the tool's function. -/
theorem c4_destructive_permission_gate :
    ∀ (r : ToolRegistry) (tool_name : String) (md : ToolMetadata),
      r.get_tool_metadata tool_name = some md →
      ((check_permissions r tool_name = false) ↔
        (md.destructive = true ∧ md.requires_approval = false)) ∧
      (∀ kwargs elapsed, r.validate_parameters tool_name kwargs = true →
        md.destructive = true → md.requires_approval = false →
        ToolExecutor.execute r tool_name kwargs elapsed =
          { success := false, tool_name := tool_name, parameters := kwargs,
            result := none,
            error := some ("Permission denied for tool '" ++ tool_name ++ "'"),
            execution_time := none }) := by
  intro r tool_name md h
  have hperm : check_permissions r tool_name = (!md.destructive || md.requires_approval) := by
    unfold check_permissions
    rw [h]
  constructor
  · rw [hperm]
    cases hd : md.destructive <;> cases ha : md.requires_approval <;> simp
  · intro kwargs elapsed hv hd ha
    have hp : check_permissions r tool_name = false := by
      rw [hperm, hd, ha]
      rfl
    unfold ToolExecutor.execute
    rw [hv, hp]
    rfl

/-- Claim C4, witness: the destructive, unapproved `write_memory` tool of the
concrete registry is denied by the permission check, and `execute` returns
the permission-denied failure. -/
theorem c4_permission_denied_witness :
    check_permissions c4_registry "write_memory" = false ∧
    ToolExecutor.execute c4_registry "write_memory" [] 0 =
      { success := false, tool_name := "write_memory", parameters := [],
        result := none,
        error := some ("Permission denied for tool '" ++ "write_memory" ++ "'"),
        execution_time := none } :=
  ⟨(c4_destructive_permission_gate c4_registry "write_memory" c4_md rfl).1.mpr ⟨rfl, rfl⟩,
   (c4_destructive_permission_gate c4_registry "write_memory" c4_md rfl).2 [] 0 rfl rfl rfl⟩

/-- Claim C7: batch execution returns exactly one result per call, in call
order, each determined by its own call alone; a call whose tool function
raises yields a failed result whose error carries the exception's message. -/
theorem c7_batch_per_call :
    ∀ (r : ToolRegistry) (calls : List ToolCall) (elapsed : ℚ),
      (ToolExecutor.execute_batch r calls elapsed).length = calls.length ∧
      (∀ i, (ToolExecutor.execute_batch r calls elapsed).get? i =
        (calls.get? i).map (fun c => ToolExecutor.execute r c.name c.arguments elapsed)) ∧
      (∀ i c tool_func m, calls.get? i = some c →
        r.validate_parameters c.name c.arguments = true →
        check_permissions r c.name = true →
        r.get_tool_function c.name = some tool_func →
        tool_func c.arguments = Except.error m →
        ∃ res, (ToolExecutor.execute_batch r calls elapsed).get? i = some res ∧
          res.success = false ∧
          res.error = some ("Error executing tool '" ++ c.name ++ "': " ++ m)) := by
  intro r calls elapsed
  refine ⟨List.length_map _ _, fun i => List.get?_map _ _ _, ?_⟩
  intro i c tool_func m hi hv hp hf hm
  refine ⟨ToolExecutor.execute r c.name c.arguments elapsed, ?_, ?_, ?_⟩
  · unfold ToolExecutor.execute_batch
    rw [List.get?_map, hi]
    rfl
  · simp [ToolExecutor.execute, hv, hp, hf, hm]
  · simp [ToolExecutor.execute, hv, hp, hf, hm]

/-- Claim C7, witness: three calls with the middle tool raising "boom" give
exactly three results, the middle one failed with the raised message and the
outer two succeeding on their own. -/
theorem c7_batch_witness :
    (ToolExecutor.execute_batch c7_registry c7_calls 0).length = 3 ∧
    (∃ res, (ToolExecutor.execute_batch c7_registry c7_calls 0).get? 1 = some res ∧
      res.success = false ∧
      res.error = some ("Error executing tool '" ++ "read_memory" ++ "': " ++ "boom")) ∧
    ((ToolExecutor.execute_batch c7_registry c7_calls 0).get? 0).map
      (fun res => res.success) = some true ∧
    ((ToolExecutor.execute_batch c7_registry c7_calls 0).get? 2).map
      (fun res => res.success) = some true := by
  refine ⟨(c7_batch_per_call c7_registry c7_calls 0).1.trans rfl,
    (c7_batch_per_call c7_registry c7_calls 0).2.2 1
      { name := "read_memory", arguments := [] } c7_fn_raises "boom" rfl rfl rfl rfl rfl,
    ?_, ?_⟩ <;> decide

/-- Claim C1: for every request, `Agent.execute` returns an AnalysisReport
and never propagates an exception; whenever any internal step of planning or
plan execution raises, the returned report has success = false and a
non-empty error.  Planning and context creation are total (the planner
catches every LLM-strategy exception, cf. C2), and whatever the
plan-execution loop raises escapes `_execute_plan` as the except clause's
own KeyError('TaskState'), so the report's error is "'TaskState'" — never
empty.  A raising synthesizer is likewise caught and turned into a failed
report carrying its message. -/
theorem c1_execute_always_reports :
    (∀ env request m,
      env.execute_plan_body (env.create_context_stage (env.plan_stage request)) =
        .raises m →
      Agent.execute env request = agent_error_report env.now env.elapsed "'TaskState'" ∧
      (Agent.execute env request).success = false ∧
      (Agent.execute env request).error = some "'TaskState'" ∧
      ("'TaskState'" : String) ≠ "") ∧
    (∀ env request ctx2 m,
      env.execute_plan_body (env.create_context_stage (env.plan_stage request)) =
        .ok ctx2 →
      env.synthesize_stage ctx2 = .raises m →
      Agent.execute env request = agent_error_report env.now env.elapsed m ∧
      (Agent.execute env request).success = false ∧
      (Agent.execute env request).error = some m) ∧
    (∀ env request ctx2 rep,
      env.execute_plan_body (env.create_context_stage (env.plan_stage request)) =
        .ok ctx2 →
      env.synthesize_stage ctx2 = .ok rep →
      Agent.execute env request = { rep with execution_time := env.elapsed }) := by
  refine ⟨?_, ?_, ?_⟩
  · intro env request m h1
    refine ⟨?_, ?_, ?_, by decide⟩ <;>
      simp only [Agent.execute, execute_plan_stage, h1, agent_error_report]
  · intro env request ctx2 m h1 h2
    refine ⟨?_, ?_, ?_⟩ <;>
      simp only [Agent.execute, execute_plan_stage, h1, h2, agent_error_report]
  · intro env request ctx2 rep h1 h2
    simp only [Agent.execute, execute_plan_stage, h1, h2]

/-- Claim C1, witness: a loop body raising the AttributeError of
agent.py:235 makes `execute` return the synthetic failed report whose error
is the handler's non-empty "'TaskState'". -/
theorem c1_execute_reports_witness :
    Agent.execute loop_raise_env "analyze the target" =
      agent_error_report loop_raise_env.now loop_raise_env.elapsed "'TaskState'" ∧
    (Agent.execute loop_raise_env "analyze the target").success = false ∧
    (Agent.execute loop_raise_env "analyze the target").error = some "'TaskState'" ∧
    ("'TaskState'" : String) ≠ "" :=
  c1_execute_always_reports.1 loop_raise_env "analyze the target"
    "module 'time' has no attribute 'datetime'" rfl

/-- Claim C3 (a code bug): on a running context with exactly 5 history
entries, all failed, `evaluate_state` does not emit the stuck-in-error-loop
issue — `recent_errors` is capped at 3 elements, so its length can never
equal the length 5 of `history[-5:]` — and `_make_decision_with_rules` then
returns "adjust", not "recover" (its membership test compares against
"stuck in error loop", a string never equal to the appended
"Appears to be stuck in error loop" issue). -/
theorem c3_stuck_loop_detection_never_fires :
    stuck_ctx.history.length = 5 ∧
    stuck_ctx.history.all (fun s => !s.success) = true ∧
    (evaluate_state stuck_ctx).issues.contains "Appears to be stuck in error loop" = false ∧
    (evaluate_state stuck_ctx).issues.all (fun s => !(strContains s "stuck")) = true ∧
    (make_decision_with_rules (evaluate_state stuck_ctx) stuck_ctx).action = "adjust" ∧
    (make_decision_with_rules (evaluate_state stuck_ctx) stuck_ctx).confidence = 49/100 := by
  refine ⟨rfl, rfl, by decide, by decide, by decide, ?_⟩
  rw [show (make_decision_with_rules (evaluate_state stuck_ctx) stuck_ctx).confidence =
    (7 : ℚ)/10 * ((7 : ℚ)/10) from rfl]
  norm_num

end CEAgent
